import Mathlib

/-!
Shallow embedding of the `noleak` crate (`src/lib.rs`).

The crate offers a container `Lock<'lock, T>` that cannot be leaked once
locked: `Lock::lock` yields a one-shot `Acceptor`, whose `fill` places a
value in the lock and returns a `Handle` (a `Deref`/`DerefMut` proxy).
`Acceptor::fill_from` relocates a value out of another slot's handle.

Modelling choices:
* Rust mutable references to stack-resident locks are modelled by a store
  mapping slot identifiers to `Lock` values; `Acceptor` and `Handle` keep
  the identifier of the lock their `mut_lock` field points at.
* A Rust panic is modelled as `Except.error` carrying the panic message;
  for `fill_from` the error also carries the store at panic time, since the
  `Option::take` on the source slot has already executed when the
  `expect` fires.
* The zero-sized `PhantomData` marker field of `Lock` is elided.
* Scope-exit destruction is modelled by the drop glue of each struct:
  neither `Lock` nor `Handle` declares an `impl Drop`, so dropping them
  drops their fields; the only droppable field anywhere is
  `Lock.opt_val : Option T`, whose drop runs the destructor of the
  contained value exactly when one is present.
-/

namespace Noleak

/-- Slot identifiers: each `Lock` lives at one stack location, and the
`&'lock mut Lock` fields of `Acceptor` and `Handle` are modelled as the
identifier of the lock they reference. -/
abbrev SlotId := Nat

/-- `struct Lock<'lock, T> { opt_val: Option<T>, phantom_lock: PhantomData<&'lock mut ()> }`
(lib.rs lines 68-71).  The zero-sized phantom marker is elided. -/
structure Lock (T : Type) where
  opt_val : Option T
deriving DecidableEq

variable {T : Type}

/-- The ambient store of stack slots holding the locks. -/
def Store (T : Type) := SlotId → Lock T

/-- Read the lock stored at slot `i`. -/
def Store.slots (σ : Store T) (i : SlotId) : Lock T := σ i

/-- Overwrite the lock stored at slot `i`. -/
def Store.update (σ : Store T) (i : SlotId) (l : Lock T) : Store T :=
  fun j => if j = i then l else σ j

/-- A store in which every slot holds a freshly created (empty) lock. -/
def Store.init : Store T := fun _ => { opt_val := none }

/-- `Lock::new()` (lib.rs lines 77-79): `Lock { opt_val: None, phantom_lock: PhantomData }`. -/
def Lock.new : Lock T := { opt_val := none }

/-- Whether the source declares an `impl Drop for Lock`: it does not
(lib.rs has no such impl). -/
def Lock.declaresDrop : Bool := false

/-- Rust drop glue for `Lock` at scope exit: with no `Drop` impl of its
own, dropping a `Lock` drops its fields, and the only droppable field is
`opt_val : Option T`; dropping the `Option` runs the destructor of the
contained value exactly when one is present.  `dropLog` is the list of
values whose destructors run. -/
def Lock.dropLog (l : Lock T) : List T := l.opt_val.toList

/-- `struct Acceptor<'lock, T> { mut_lock: &'lock mut Lock<'lock, T> }`
(lib.rs lines 88-90). -/
structure Acceptor where
  mut_lock : SlotId
deriving DecidableEq

/-- `struct Handle<'lock, T> { mut_lock: &'lock mut Lock<'lock, T> }`
(lib.rs lines 108-110). -/
structure Handle where
  mut_lock : SlotId
deriving DecidableEq

/-- `Acceptor::new(lock)` (lib.rs lines 93-95): wraps the mutable
reference to the lock. -/
def Acceptor.new (i : SlotId) : Acceptor := { mut_lock := i }

/-- `Lock::lock(&'lock mut self)` (lib.rs lines 83-85): issues the
acceptor for this slot via `Acceptor::new(self)`. -/
def Lock.lock (i : SlotId) : Acceptor := Acceptor.new i

/-- `Acceptor::fill(self, t)` (lib.rs lines 97-100):
`self.mut_lock.opt_val = Some(t); Handle { mut_lock: self.mut_lock }`.
Writes `Some t` into the referenced slot (overwriting whatever was there)
and returns a handle on the same slot.  Total: there is no error path. -/
def Acceptor.fill (a : Acceptor) (t : T) (σ : Store T) : Store T × Handle :=
  (σ.update a.mut_lock { opt_val := some t }, { mut_lock := a.mut_lock })

/-- `<Handle as Deref>::deref` (lib.rs lines 112-117):
`self.mut_lock.opt_val.as_ref().expect("Tried to deref() an emptied Handle!")`. -/
def Handle.deref (h : Handle) (σ : Store T) : Except String T :=
  match (σ.slots h.mut_lock).opt_val with
  | some v => .ok v
  | none => .error "Tried to deref() an emptied Handle!"

/-- `<Handle as DerefMut>::deref_mut` (lib.rs lines 119-123), read side:
`self.mut_lock.opt_val.as_mut().expect("Tried to deref_mut() an emptied Handle!")`. -/
def Handle.deref_mut (h : Handle) (σ : Store T) : Except String T :=
  match (σ.slots h.mut_lock).opt_val with
  | some v => .ok v
  | none => .error "Tried to deref_mut() an emptied Handle!"

/-- Assignment through `DerefMut` (`*handle = t`): first materialises the
mutable reference, panicking exactly as `deref_mut` does when the slot is
empty, then overwrites the referenced value in place. -/
def Handle.deref_mut_assign (h : Handle) (t : T) (σ : Store T) :
    Except String (Store T) :=
  match (σ.slots h.mut_lock).opt_val with
  | some _ => .ok (σ.update h.mut_lock { opt_val := some t })
  | none => .error "Tried to deref_mut() an emptied Handle!"

/-- `Acceptor::fill_from(self, handle_t)` (lib.rs lines 102-105):
`let new = handle_t.mut_lock.opt_val.take().expect("Attempting to .fill_from() an emptied Handle!"); self.fill(new)`.
`Option::take` replaces the source occupancy with `None` and returns the
old contents before the `expect` runs, so a panic (modelled as `.error`)
carries the store as it stands at panic time. -/
def Acceptor.fill_from (a : Acceptor) (h : Handle) (σ : Store T) :
    Except (String × Store T) (Store T × Handle) :=
  let taken := (σ.slots h.mut_lock).opt_val
  let σ1 := σ.update h.mut_lock { opt_val := none }
  match taken with
  | none => .error ("Attempting to .fill_from() an emptied Handle!", σ1)
  | some v => .ok (a.fill v σ1)

/-- Whether the source declares an `impl Drop for Handle`: it does not. -/
def Handle.declaresDrop : Bool := false

/-- Rust drop glue for `Handle`: it declares no `Drop` impl and its only
field is a mutable reference, which has no drop glue of its own, so
dropping a handle leaves every slot of the store exactly as it was. -/
def Handle.drop (_h : Handle) (σ : Store T) : Store T := σ

/-- The §8 spec scenario as a straight-line program: fill a fresh slot
with the integer 0, read it through the handle, assign 42 through the
handle's mutable dereference, and read again. -/
def scenarioReadWrite : Except String (Int × Int) :=
  let p := (Lock.lock 0).fill (0 : Int) Store.init
  match p.2.deref p.1 with
  | .error e => .error e
  | .ok first =>
    match p.2.deref_mut_assign 42 p.1 with
    | .error e => .error e
    | .ok σ2 =>
      match p.2.deref σ2 with
      | .error e => .error e
      | .ok second => .ok (first, second)

/-- A lock whose occupancy is empty is the empty lock. -/
theorem Lock.eq_empty_of_opt_val_none (l : Lock T) (hn : l.opt_val = none) :
    l = { opt_val := none } := by
  cases l
  simp_all

/-- Claim C1: a `Lock` declares no destructor of its own, yet for every
lock that holds a value when its owning scope ends, scope-exit drop glue
runs the held value's destructor exactly once (the drop log is exactly
that single value). -/
theorem C1_scope_exit_destructs_exactly_once (l : Lock T) (v : T)
    (hv : l.opt_val = some v) :
    l.dropLog = [v] ∧ Lock.declaresDrop = false := by
  refine ⟨?_, rfl⟩
  simp [Lock.dropLog, hv]

/-- Witness for C1 at the concrete lock holding `7 : Int`. -/
theorem C1_scope_exit_destructs_exactly_once_holds_at_seven :
    ({ opt_val := some 7 } : Lock Int).opt_val = some 7 ∧
      (({ opt_val := some 7 } : Lock Int).dropLog = [7] ∧
        Lock.declaresDrop = false) :=
  ⟨rfl, C1_scope_exit_destructs_exactly_once
    ({ opt_val := some 7 } : Lock Int) 7 rfl⟩

/-- Claim C2: filling a fresh slot's acceptor (obtained via `Lock::new`
then `lock`) with `v` and dereferencing the resulting handle yields
exactly `v`. -/
theorem C2_fill_then_deref_roundtrip (v : T) (i : SlotId) :
    (((Lock.lock i).fill v Store.init).2).deref
        (((Lock.lock i).fill v Store.init).1) = .ok v := by
  simp [Lock.lock, Acceptor.new, Acceptor.fill, Handle.deref,
    Store.update, Store.slots, Store.init]

/-- Claim C3: `Acceptor::fill` writes the value into the referenced
slot's occupancy (overwriting any prior state), returns a handle bound to
the same slot, and is a total function (no error path for any input,
including an already-occupied slot). -/
theorem C3_fill_writes_and_returns_same_slot (a : Acceptor) (t : T)
    (σ : Store T) :
    ((a.fill t σ).1.slots a.mut_lock).opt_val = some t ∧
      (a.fill t σ).2.mut_lock = a.mut_lock := by
  refine ⟨?_, rfl⟩
  simp [Acceptor.fill, Store.update, Store.slots]

/-- Claim C4: `Acceptor::fill_from` panics if and only if the source
handle's slot is already empty; with a non-empty source it succeeds, so
it never silently produces a default or empty value. -/
theorem C4_fill_from_panics_iff_source_empty (a : Acceptor) (h : Handle)
    (σ : Store T) :
    (∃ e, a.fill_from h σ = .error e) ↔
      (σ.slots h.mut_lock).opt_val = none := by
  cases hcase : (σ.slots h.mut_lock).opt_val <;>
    simp [Acceptor.fill_from, hcase]

/-- Witness for C4 at a concrete empty source slot. -/
theorem C4_fill_from_panics_iff_source_empty_holds_on_empty :
    ∃ e, Acceptor.fill_from { mut_lock := 0 } { mut_lock := 1 }
        (Store.init : Store Int) = .error e :=
  (C4_fill_from_panics_iff_source_empty { mut_lock := 0 } { mut_lock := 1 }
    Store.init).mpr rfl

/-- Claim C5: a successful `fill_from` relocating the value of slot A
(read through its handle) into slot B's acceptor leaves A's occupancy
empty — so dereferencing A's original handle afterwards fails fatally —
and the handle returned for B yields exactly the relocated value. -/
theorem C5_fill_from_relocates (a : Acceptor) (h : Handle) (σ : Store T)
    (v : T) (hne : a.mut_lock ≠ h.mut_lock)
    (hv : (σ.slots h.mut_lock).opt_val = some v) :
    ∃ σ2 h2, a.fill_from h σ = .ok (σ2, h2) ∧
      (σ2.slots h.mut_lock).opt_val = none ∧
      h.deref σ2 = .error "Tried to deref() an emptied Handle!" ∧
      h2.deref σ2 = .ok v ∧ h2.mut_lock = a.mut_lock := by
  have hne2 : ¬ h.mut_lock = a.mut_lock := fun hh => hne hh.symm
  refine ⟨(σ.update h.mut_lock { opt_val := none }).update a.mut_lock
      { opt_val := some v },
    { mut_lock := a.mut_lock }, ?_, ?_, ?_, ?_, rfl⟩
  · simp [Acceptor.fill_from, Acceptor.fill, hv]
  · simp [Acceptor.fill, Store.update, Store.slots, hne2]
  · simp [Handle.deref, Acceptor.fill, Store.update, Store.slots, hne2]
  · simp [Handle.deref, Acceptor.fill, Store.update, Store.slots]

/-- Witness for C5: relocate `5 : Int` out of slot 1 into slot 0. -/
theorem C5_fill_from_relocates_holds_at_five :
    ({ mut_lock := 0 } : Acceptor).mut_lock ≠
        ({ mut_lock := 1 } : Handle).mut_lock ∧
      (((Store.init : Store Int).update 1 { opt_val := some 5 }).slots
          ({ mut_lock := 1 } : Handle).mut_lock).opt_val = some 5 ∧
      ∃ σ2 h2,
        Acceptor.fill_from { mut_lock := 0 } { mut_lock := 1 }
            ((Store.init : Store Int).update 1 { opt_val := some 5 }) =
          .ok (σ2, h2) ∧
        (σ2.slots ({ mut_lock := 1 } : Handle).mut_lock).opt_val = none ∧
        Handle.deref { mut_lock := 1 } σ2 =
          .error "Tried to deref() an emptied Handle!" ∧
        h2.deref σ2 = .ok 5 ∧
        h2.mut_lock = ({ mut_lock := 0 } : Acceptor).mut_lock :=
  ⟨by decide, rfl,
    C5_fill_from_relocates { mut_lock := 0 } { mut_lock := 1 }
      ((Store.init : Store Int).update 1 { opt_val := some 5 }) 5
      (by decide) rfl⟩

/-- Claim C6: dereferencing a handle (read) yields the value contained in
its slot and dereferencing mutably (write) yields that same referenced
value; both fail fatally exactly when the slot's occupancy is empty, and
in no other case. -/
theorem C6_deref_and_deref_mut_fail_iff_empty (h : Handle) (σ : Store T) :
    (∀ v, (σ.slots h.mut_lock).opt_val = some v →
        h.deref σ = .ok v ∧ h.deref_mut σ = .ok v) ∧
      ((σ.slots h.mut_lock).opt_val = none →
        h.deref σ = .error "Tried to deref() an emptied Handle!" ∧
          h.deref_mut σ = .error "Tried to deref_mut() an emptied Handle!") := by
  constructor
  · intro v hv
    exact ⟨by simp [Handle.deref, hv], by simp [Handle.deref_mut, hv]⟩
  · intro hn
    exact ⟨by simp [Handle.deref, hn], by simp [Handle.deref_mut, hn]⟩

/-- Witness for C6 at a concrete occupied slot holding `3 : Int`. -/
theorem C6_deref_and_deref_mut_fail_iff_empty_holds_at_three :
    ((((Store.init : Store Int).update 0 { opt_val := some 3 }).slots
        ({ mut_lock := 0 } : Handle).mut_lock).opt_val = some 3) ∧
      (Handle.deref { mut_lock := 0 }
          ((Store.init : Store Int).update 0 { opt_val := some 3 }) = .ok 3 ∧
        Handle.deref_mut { mut_lock := 0 }
          ((Store.init : Store Int).update 0 { opt_val := some 3 }) = .ok 3) :=
  ⟨rfl,
    (C6_deref_and_deref_mut_fail_iff_empty { mut_lock := 0 }
        ((Store.init : Store Int).update 0 { opt_val := some 3 })).1 3 rfl⟩

/-- Claim C7: in the concrete scenario — fresh slot filled with `0`,
dereference reads `0`, assignment through the mutable dereference writes
`42`, re-dereference reads `42` — writes through the handle are observed
by subsequent reads through the same handle. -/
theorem C7_write_then_read_observes_42 : scenarioReadWrite = .ok (0, 42) := rfl

/-- Claim C8: `Lock::new()` always returns a slot whose occupancy is
empty, and it cannot fail (it is a total function). -/
theorem C8_new_lock_is_empty : ∀ (A : Type), (Lock.new : Lock A).opt_val = none :=
  fun _ => rfl

/-- Claim C9: `Handle` declares no destructor, and dropping a handle
leaves every slot of the store — occupancy and contained value — exactly
as it was. -/
theorem C9_handle_drop_unobservable (h : Handle) (σ : Store T) (i : SlotId) :
    (Handle.drop h σ).slots i = σ.slots i ∧ Handle.declaresDrop = false :=
  ⟨rfl, rfl⟩

/-- Claim C10: when `fill_from` panics because the source handle's slot
is empty, the store at panic time agrees with the original store on every
slot (the source was already empty and the destination was never
written), so the failed call leaves the destination exactly as it was. -/
theorem C10_failed_fill_from_changes_nothing (a : Acceptor) (h : Handle)
    (σ : Store T) (e : String × Store T)
    (herr : a.fill_from h σ = .error e) :
    ∀ j, e.2.slots j = σ.slots j := by
  intro j
  cases hcase : (σ.slots h.mut_lock).opt_val with
  | some v => simp [Acceptor.fill_from, hcase] at herr
  | none =>
    simp [Acceptor.fill_from, hcase] at herr
    subst herr
    simp only
    by_cases hj : j = h.mut_lock
    · subst hj
      rw [Lock.eq_empty_of_opt_val_none (σ.slots h.mut_lock) hcase]
      simp [Store.update, Store.slots]
    · simp [Store.update, Store.slots, hj]

/-- Witness for C10: `fill_from` with both slots fresh panics and leaves
the destination slot 0 as it was. -/
theorem C10_failed_fill_from_changes_nothing_holds_at_zero :
    (Acceptor.fill_from { mut_lock := 0 } { mut_lock := 1 }
        (Store.init : Store Int) =
      .error ("Attempting to .fill_from() an emptied Handle!",
        (Store.init : Store Int).update 1 { opt_val := none })) ∧
      ((Store.init : Store Int).update 1 { opt_val := none }).slots 0 =
        (Store.init : Store Int).slots 0 :=
  ⟨rfl,
    C10_failed_fill_from_changes_nothing { mut_lock := 0 } { mut_lock := 1 }
      Store.init
      ("Attempting to .fill_from() an emptied Handle!",
        (Store.init : Store Int).update 1 { opt_val := none }) rfl 0⟩

end Noleak
